import Mathlib

/-!
Verification of the tank-arena game server (`src/server.js`, plus the turret
variant of the same server found in `src/unnamed/part_000`).

Modelling conventions:
* JavaScript numbers are modelled as rationals (`ℚ`); all arithmetic the
  server performs on the hot paths (positions, velocities, health, squared
  distances, clamping) is exact rational arithmetic, so this is faithful
  wherever the source stays inside `+ - * /`.
* The transcendental library calls `Math.sqrt`, `Math.pow`, `Math.atan2`,
  `Math.cos`, `Math.sin` and the random generator `Math.random` are passed
  in as explicit oracle parameters (`sq`, `pw`, `at2`, cosine/sine values,
  `rnd`).  Theorems either hold for every oracle, or carry hypotheses
  stating exactly the square-root facts they need; concrete evaluations
  only consult the oracles at points where the true function value is
  rational (e.g. `sqrt 1 = 1`) or where the result is multiplied by zero.
* `Math.PI` is likewise a parameter `piv`; every statement about the angle
  normalisation formula is proved for an arbitrary positive `piv` (the
  formula is positively homogeneous, so its behaviour at a rational
  stand-in mirrors its behaviour at the real π).
* JavaScript `%` is the *remainder* operation (truncated division, result
  has the sign of the dividend); it is modelled by `jsRem` below, built on
  truncation toward zero (`ratTrunc`).
* `Date.now()` timestamps are integers (milliseconds), passed as `now`.
-/

namespace TankGame

/-! ### Game constants (GAME_CONFIG in `src/server.js`) -/

def ARENA_WIDTH : ℚ := 1200
def ARENA_HEIGHT : ℚ := 700
def TANK_RADIUS : ℚ := 15
def BULLET_RADIUS : ℚ := 5
def BULLET_SPEED : ℚ := 800
def BULLET_DAMAGE : ℚ := 25
def MAX_HEALTH : ℚ := 100
def TANK_SPEED : ℚ := 250
def TANK_BOOST_MULTIPLIER : ℚ := 9/5
def FRICTION : ℚ := 23/25
def ROTATION_SPEED : ℚ := 8
def RESPAWN_TIME : ℤ := 3000
def BULLET_LIFETIME : ℤ := 2000
def REPAIR_AMOUNT : ℚ := 10
def REPAIR_COOLDOWN : ℤ := 5000
def SMOOTHING_FACTOR : ℚ := 1/5
def MAX_BULLETS : ℕ := 50
def TURRET_TURN_SPEED : ℚ := 10
def TANK_TURRET_OFFSET : ℚ := 25

/-! ### JavaScript remainder and the angle-normalisation formula -/

/-- Truncation toward zero, as JavaScript division-remainder semantics use.
For `q ≥ 0` this is `⌊q⌋`, for `q < 0` it is `⌈q⌉`. -/
def ratTrunc (q : ℚ) : ℤ := if 0 ≤ q then ⌊q⌋ else ⌈q⌉

/-- JavaScript `a % b`: remainder of truncated division, `a - b * trunc (a / b)`.
The result carries the sign of the dividend `a`. -/
def jsRem (a b : ℚ) : ℚ := a - b * (ratTrunc (a / b) : ℚ)

/-- The angle-delta normalisation used in both `Player.update` variants:
`((diff + PI) % (2 * PI)) - PI` with JavaScript `%` semantics.
`piv` stands for `Math.PI`. -/
def normalizeDelta (piv diff : ℚ) : ℚ := jsRem (diff + piv) (2 * piv) - piv

/-! ### Data model (`server.js` variant: single body angle, keyboard rotation) -/

/-- The mutable input buffer of a player (`this.inputState` in `server.js`). -/
structure InputState where
  dx : ℚ
  dy : ℚ
  boost : Bool
  angle : ℚ
  deriving DecidableEq

/-- A connected player's tank (`class Player` in `src/server.js`). -/
structure Player where
  id : ℕ
  x : ℚ
  y : ℚ
  vx : ℚ
  vy : ℚ
  angle : ℚ
  targetAngle : ℚ
  hp : ℚ
  score : ℚ
  isAlive : Bool
  respawnTime : ℤ
  lastShot : ℤ
  shootCooldown : ℤ
  lastUpdate : ℤ
  input : InputState
  deriving DecidableEq

/-- A live projectile (`class Bullet` / the record built by `Player.shoot`). -/
structure Bullet where
  id : ℕ
  x : ℚ
  y : ℚ
  vx : ℚ
  vy : ℚ
  owner : ℕ
  createdAt : ℤ
  angle : ℚ
  deriving DecidableEq

/-- `Player.applyInput(deltaTime)` from `src/server.js`.  `sq` is the
`Math.sqrt` oracle, `at2` the `Math.atan2` oracle (first argument `y`,
second `x`, as in JavaScript). -/
def applyInput (sq : ℚ → ℚ) (at2 : ℚ → ℚ → ℚ) (dt : ℚ) (p : Player) : Player :=
  if p.isAlive = false then p
  else
    let speed := TANK_SPEED * (if p.input.boost then TANK_BOOST_MULTIPLIER else 1)
    let p1 :=
      if p.input.dx ≠ 0 ∨ p.input.dy ≠ 0 then
        let magnitude := sq (p.input.dx * p.input.dx + p.input.dy * p.input.dy)
        let nvx := p.input.dx / magnitude * speed
        let nvy := p.input.dy / magnitude * speed
        { p with vx := nvx, vy := nvy, targetAngle := at2 nvy nvx }
      else p
    if p1.input.angle ≠ 0 then
      { p1 with targetAngle := p1.targetAngle + p1.input.angle * ROTATION_SPEED * dt }
    else p1

/-- `Player.respawn()`: `rx`, `ry` are the two `Math.random()` draws. -/
def respawn (rx ry : ℚ) (p : Player) : Player :=
  { p with isAlive := true, hp := MAX_HEALTH,
           x := rx * (ARENA_WIDTH - 200) + 100,
           y := ry * (ARENA_HEIGHT - 200) + 100,
           vx := 0, vy := 0, angle := 0, targetAngle := 0,
           input := { dx := 0, dy := 0, boost := false, angle := 0 } }

/-- The boundary-bounce clamping block at the end of `Player.update`. -/
def clampBounds (p : Player) : Player :=
  let p1 :=
    if p.x < TANK_RADIUS then
      { p with x := TANK_RADIUS, vx := |p.vx| * (1/2) }
    else if p.x > ARENA_WIDTH - TANK_RADIUS then
      { p with x := ARENA_WIDTH - TANK_RADIUS, vx := -|p.vx| * (1/2) }
    else p
  if p1.y < TANK_RADIUS then
    { p1 with y := TANK_RADIUS, vy := |p1.vy| * (1/2) }
  else if p1.y > ARENA_HEIGHT - TANK_RADIUS then
    { p1 with y := ARENA_HEIGHT - TANK_RADIUS, vy := -|p1.vy| * (1/2) }
  else p1

/-- `Player.update(deltaTime)` from `src/server.js`.  `pw` is the `Math.pow`
oracle (used as `Math.pow(FRICTION, deltaTime)`), `piv` stands for
`Math.PI`, `rx`/`ry` are the `Math.random()` draws a respawn would use. -/
def update (sq : ℚ → ℚ) (at2 pw : ℚ → ℚ → ℚ) (piv rx ry : ℚ) (now : ℤ) (dt : ℚ)
    (p : Player) : Player :=
  if p.isAlive = false then
    if now > p.respawnTime then respawn rx ry p else p
  else
    let p1 := applyInput sq at2 dt p
    let p2 := { p1 with vx := p1.vx * pw FRICTION dt, vy := p1.vy * pw FRICTION dt }
    let p3 := { p2 with x := p2.x + p2.vx * dt, y := p2.y + p2.vy * dt }
    let d := normalizeDelta piv (p3.targetAngle - p3.angle)
    let p4 := { p3 with angle := p3.angle + d * SMOOTHING_FACTOR }
    let p5 := clampBounds p4
    { p5 with lastUpdate := now }

/-- `Player.setInputState(input)`: the inbound `move` event payload, with a
field per key that may or may not be present (`{...this.inputState, ...input}`
keeps absent fields). -/
structure InputPatch where
  dx : Option ℚ
  dy : Option ℚ
  boost : Option Bool
  angle : Option ℚ
  deriving DecidableEq

/-- `Player.setInputState(input)` from `src/server.js`: spread-merge of the
received object over the stored input buffer. -/
def setInputState (e : InputPatch) (p : Player) : Player :=
  { p with input :=
      { dx := e.dx.getD p.input.dx
        dy := e.dy.getD p.input.dy
        boost := e.boost.getD p.input.boost
        angle := e.angle.getD p.input.angle } }

/-- `Player.takeDamage(damage, attackerId)` body (health/lifecycle part;
the attacker score bonus is applied by `addScore` at the call site, as the
source reads the attacker out of the global `players` table).  Returns the
updated victim and whether the hit was lethal. -/
def takeDamage (now : ℤ) (dmg : ℚ) (p : Player) : Player × Bool :=
  if p.isAlive = false then (p, false)
  else
    let hp1 := p.hp - dmg
    if hp1 ≤ 0 then
      ({ p with hp := 0, isAlive := false, respawnTime := now + RESPAWN_TIME,
                vx := 0, vy := 0 }, true)
    else ({ p with hp := hp1 }, false)

/-- The `players[attackerId].score += 100` bonus on a lethal hit. -/
def addScore (attacker : ℕ) (ts : List Player) : List Player :=
  ts.map (fun q => if q.id = attacker then { q with score := q.score + 100 } else q)

/-- Truthiness-plus-cooldown test
`lastRepairTime[this.id] && now - lastRepairTime[this.id] < REPAIR_COOLDOWN`:
a missing entry, or the (falsy) timestamp `0`, does not block the repair. -/
def repairBlocked (now : ℤ) (lr : Option ℤ) : Bool :=
  match lr with
  | none => false
  | some t => decide (t ≠ 0) && decide (now - t < REPAIR_COOLDOWN)

/-- `Player.repair()` from `src/server.js`, threading the global
`lastRepairTime[this.id]` entry explicitly.  Returns (success, new
last-repair entry, updated player). -/
def repair (now : ℤ) (lr : Option ℤ) (p : Player) : Bool × Option ℤ × Player :=
  if p.isAlive = false then (false, lr, p)
  else if repairBlocked now lr then (false, lr, p)
  else (true, some now, { p with hp := min MAX_HEALTH (p.hp + REPAIR_AMOUNT) })

/-- `Bullet.update(deltaTime)`: straight-line integration, then the
out-of-bounds / lifetime check.  The `Bool` is the source's return value
(`true` = still alive). -/
def bulletUpdate (dt : ℚ) (now : ℤ) (b : Bullet) : Bullet × Bool :=
  let b1 := { b with x := b.x + b.vx * dt, y := b.y + b.vy * dt }
  if b1.x < -100 ∨ b1.x > ARENA_WIDTH + 100 ∨ b1.y < -100 ∨ b1.y > ARENA_HEIGHT + 100 ∨
      now - b.createdAt > BULLET_LIFETIME then
    (b1, false)
  else (b1, true)

/-! ### Data model (`src/unnamed/part_000` variant: independent turret angle) -/

namespace TV

/-- The input buffer of the turret variant (`this.inputState` in
`src/unnamed/part_000`): mouse aim instead of a keyboard rotation axis. -/
structure InputState where
  dx : ℚ
  dy : ℚ
  boost : Bool
  mouseX : ℚ
  mouseY : ℚ
  isMouseDown : Bool
  deriving DecidableEq

/-- `class Player` of the turret variant: the body angle is joined by an
independent turret angle pair. -/
structure Player where
  id : ℕ
  x : ℚ
  y : ℚ
  vx : ℚ
  vy : ℚ
  angle : ℚ
  targetAngle : ℚ
  turretAngle : ℚ
  targetTurretAngle : ℚ
  hp : ℚ
  score : ℚ
  isAlive : Bool
  respawnTime : ℤ
  lastShot : ℤ
  shootCooldown : ℤ
  lastUpdate : ℤ
  input : InputState
  deriving DecidableEq

/-- `Player.applyInput(deltaTime)` of the turret variant: the directional
branch is identical to `server.js`; the second branch aims the turret at
the mouse (`atan2(mouseY - y, mouseX - x)`) instead of integrating a
rotation axis. -/
def applyInput (sq : ℚ → ℚ) (at2 : ℚ → ℚ → ℚ) (_dt : ℚ) (p : Player) : Player :=
  if p.isAlive = false then p
  else
    let speed := TANK_SPEED * (if p.input.boost then TANK_BOOST_MULTIPLIER else 1)
    let p1 :=
      if p.input.dx ≠ 0 ∨ p.input.dy ≠ 0 then
        let magnitude := sq (p.input.dx * p.input.dx + p.input.dy * p.input.dy)
        let nvx := p.input.dx / magnitude * speed
        let nvy := p.input.dy / magnitude * speed
        { p with vx := nvx, vy := nvy, targetAngle := at2 nvy nvx }
      else p
    if p1.input.mouseX ≠ 0 ∨ p1.input.mouseY ≠ 0 then
      { p1 with targetTurretAngle := at2 (p1.input.mouseY - p1.y) (p1.input.mouseX - p1.x) }
    else p1

/-- The boundary-bounce clamping block of the turret variant's
`Player.update` (identical to `server.js`). -/
def clampBounds (p : Player) : Player :=
  let p1 :=
    if p.x < TANK_RADIUS then
      { p with x := TANK_RADIUS, vx := |p.vx| * (1/2) }
    else if p.x > ARENA_WIDTH - TANK_RADIUS then
      { p with x := ARENA_WIDTH - TANK_RADIUS, vx := -|p.vx| * (1/2) }
    else p
  if p1.y < TANK_RADIUS then
    { p1 with y := TANK_RADIUS, vy := |p1.vy| * (1/2) }
  else if p1.y > ARENA_HEIGHT - TANK_RADIUS then
    { p1 with y := ARENA_HEIGHT - TANK_RADIUS, vy := -|p1.vy| * (1/2) }
  else p1

/-- `Player.respawn()` of the turret variant. -/
def respawn (rx ry : ℚ) (p : Player) : Player :=
  { p with isAlive := true, hp := MAX_HEALTH,
           x := rx * (ARENA_WIDTH - 200) + 100,
           y := ry * (ARENA_HEIGHT - 200) + 100,
           vx := 0, vy := 0, angle := 0, targetAngle := 0,
           turretAngle := 0, targetTurretAngle := 0,
           input := { dx := 0, dy := 0, boost := false,
                      mouseX := 0, mouseY := 0, isMouseDown := false } }

/-- `Player.update(deltaTime)` of the turret variant: same body pipeline as
`server.js` plus the rate-limited turret smoothing, both deltas going
through the same normalisation formula. -/
def update (sq : ℚ → ℚ) (at2 pw : ℚ → ℚ → ℚ) (piv rx ry : ℚ) (now : ℤ) (dt : ℚ)
    (p : Player) : Player :=
  if p.isAlive = false then
    if now > p.respawnTime then respawn rx ry p else p
  else
    let p1 := applyInput sq at2 dt p
    let p2 := { p1 with vx := p1.vx * pw FRICTION dt, vy := p1.vy * pw FRICTION dt }
    let p3 := { p2 with x := p2.x + p2.vx * dt, y := p2.y + p2.vy * dt }
    let d := normalizeDelta piv (p3.targetAngle - p3.angle)
    let p4 := { p3 with angle := p3.angle + d * SMOOTHING_FACTOR }
    let td := normalizeDelta piv (p4.targetTurretAngle - p4.turretAngle)
    let p5 := { p4 with turretAngle := p4.turretAngle + td * TURRET_TURN_SPEED * dt }
    let p6 := clampBounds p5
    { p6 with lastUpdate := now }

/-- The inbound patch shape for the turret variant's `setInputState`. -/
structure InputPatch where
  dx : Option ℚ
  dy : Option ℚ
  boost : Option Bool
  mouseX : Option ℚ
  mouseY : Option ℚ
  isMouseDown : Option Bool
  deriving DecidableEq

/-- `Player.setInputState(input)` of the turret variant. -/
def setInputState (e : InputPatch) (p : Player) : Player :=
  { p with input :=
      { dx := e.dx.getD p.input.dx
        dy := e.dy.getD p.input.dy
        boost := e.boost.getD p.input.boost
        mouseX := e.mouseX.getD p.input.mouseX
        mouseY := e.mouseY.getD p.input.mouseY
        isMouseDown := e.isMouseDown.getD p.input.isMouseDown } }

/-- `Player.shoot()` of the turret variant.  `c` and `s` are the values of
`Math.cos(this.turretAngle)` and `Math.sin(this.turretAngle)`; `ctr` is the
global `bulletIdCounter` from which the bullet id is derived. -/
def shoot (now : ℤ) (c s : ℚ) (ctr : ℕ) (p : Player) : Option TankGame.Bullet × Player :=
  if p.isAlive = false then (none, p)
  else if now - p.lastShot < p.shootCooldown then (none, p)
  else
    (some { id := ctr,
            x := p.x + c * TANK_TURRET_OFFSET,
            y := p.y + s * TANK_TURRET_OFFSET,
            vx := c * BULLET_SPEED,
            vy := s * BULLET_SPEED,
            owner := p.id,
            createdAt := now,
            angle := p.turretAngle },
     { p with lastShot := now })

end TV

/-! ### The world tick (`gameTick` in `src/server.js`) -/

/-- The bullet-vs-tank hit test inside `gameTick`: alive, not the owner,
squared centre distance below `(TANK_RADIUS + BULLET_RADIUS)²`. -/
def bulletHits (b : Bullet) (p : Player) : Prop :=
  p.isAlive = true ∧ p.id ≠ b.owner ∧
    (b.x - p.x) * (b.x - p.x) + (b.y - p.y) * (b.y - p.y) <
      (TANK_RADIUS + BULLET_RADIUS) * (TANK_RADIUS + BULLET_RADIUS)

instance (b : Bullet) (p : Player) : Decidable (bulletHits b p) := by
  unfold bulletHits; infer_instance

/-- The index of the first tank (in iteration order over the `players`
table) that the bullet would hit, mirroring the inner `for..in` loop. -/
def firstHitIdx (b : Bullet) : List Player → Option ℕ
  | [] => none
  | p :: ps => if bulletHits b p then some 0 else (firstHitIdx b ps).map (· + 1)

/-- The inner collision loop of `gameTick` for one bullet: walk the tanks
in order, damage the first one hit, stop (`break`).  Returns the updated
tank list, whether the hit was lethal, and whether any hit occurred. -/
def scanHit (now : ℤ) (b : Bullet) : List Player → List Player × Bool × Bool
  | [] => ([], false, false)
  | p :: ps =>
    if bulletHits b p then
      let pd := takeDamage now BULLET_DAMAGE p
      (pd.1 :: ps, pd.2, true)
    else
      let r := scanHit now b ps
      (p :: r.1, r.2.1, r.2.2)

/-- One bullet's complete pass over the tank table: the scan plus, on a
lethal hit, the attacker's score bonus (`takeDamage` reads the attacker out
of the global `players` table).  Returns the updated tanks and whether the
bullet hit (and hence is marked for removal). -/
def bulletHitPhase (now : ℤ) (b : Bullet) (ts : List Player) : List Player × Bool :=
  let r := scanHit now b ts
  ((if r.2.1 then addScore b.owner r.1 else r.1), r.2.2)

/-- The bullet half of `gameTick`: move each bullet; drop it if expired;
otherwise run the hit scan and drop it if it hit (the source gathers the
ids in `bulletsToRemove` and deletes them at the end of the loop — the
surviving set is the same). -/
def bulletPhase (now : ℤ) (dt : ℚ) : List Bullet → List Player → List Bullet × List Player
  | [], ts => ([], ts)
  | b :: bs, ts =>
    let bu := bulletUpdate dt now b
    if bu.2 = false then bulletPhase now dt bs ts
    else
      let hr := bulletHitPhase now bu.1 ts
      if hr.2 then bulletPhase now dt bs hr.1
      else
        let r := bulletPhase now dt bs hr.1
        (bu.1 :: r.1, r.2)

/-- The tank-pair separation / impulse response inside `gameTick`'s nested
loop.  `sq` is the `Math.sqrt` oracle used for the exact distance. -/
def resolvePair (sq : ℚ → ℚ) (p1 p2 : Player) : Player × Player :=
  let dx := p1.x - p2.x
  let dy := p1.y - p2.y
  let d2 := dx * dx + dy * dy
  let cr := TANK_RADIUS * 2
  if d2 < cr * cr then
    let dist := sq d2
    let minDist := TANK_RADIUS * 2
    if dist < minDist ∧ dist > 0 then
      let nx := dx / dist
      let ny := dy / dist
      let ov := (minDist - dist) / 2
      let damping : ℚ := 4/5
      ({ p1 with x := p1.x + nx * ov, y := p1.y + ny * ov,
                 vx := p1.vx + nx * ov * damping, vy := p1.vy + ny * ov * damping },
       { p2 with x := p2.x - nx * ov, y := p2.y - ny * ov,
                 vx := p2.vx - nx * ov * damping, vy := p2.vy - ny * ov * damping })
    else (p1, p2)
  else (p1, p2)

/-- Resolve one tank against every later tank (`for j = i+1 ...`),
threading the running values of both sides as the in-place mutation does. -/
def resolveStep (sq : ℚ → ℚ) (p : Player) : List Player → Player × List Player
  | [] => (p, [])
  | q :: qs =>
    let r1 := resolvePair sq p q
    let r2 := resolveStep sq r1.1 qs
    (r2.1, r1.2 :: r2.2)

/-- Worker for `resolveAll`: the fuel argument only drives structural
recursion; it is seeded with the list length, and `resolveStep` preserves
the length of its second component, so the fuel never runs out. -/
def resolveAllGo (sq : ℚ → ℚ) : ℕ → List Player → List Player
  | _, [] => []
  | 0, ps => ps
  | n + 1, p :: ps =>
    let r := resolveStep sq p ps
    r.1 :: resolveAllGo sq n r.2

/-- The full `O(n²)` pairwise loop over the alive tanks. -/
def resolveAll (sq : ℚ → ℚ) (ps : List Player) : List Player :=
  resolveAllGo sq ps.length ps

/-- Re-interleave the mutated alive tanks into the full table (the source
mutates the shared objects in `playerArray`, so dead tanks keep their
slots and alive tanks take their updated values in order). -/
def mergeBack : List Player → List Player → List Player
  | [], _ => []
  | p :: ps, qs =>
    if p.isAlive then
      match qs with
      | [] => p :: mergeBack ps []
      | q :: qs1 => q :: mergeBack ps qs1
    else p :: mergeBack ps qs

/-- Creation-time order used by the population-cap eviction sort
(`(a, b) => a[1].createdAt - b[1].createdAt`). -/
def byAge (a b : Bullet) : Prop := a.createdAt ≤ b.createdAt

instance : DecidableRel byAge := fun a b => by unfold byAge; infer_instance

instance : IsTotal Bullet byAge := ⟨fun a b => le_total a.createdAt b.createdAt⟩

instance : IsTrans Bullet byAge := ⟨fun _ _ _ h1 h2 => le_trans h1 h2⟩

/-- The population cap at the end of `gameTick`: if more than `MAX_BULLETS`
bullets are live, sort by creation time and delete the oldest
`size - MAX_BULLETS` of them from the map. -/
def evictBullets (bs : List Bullet) : List Bullet :=
  if MAX_BULLETS < bs.length then
    let doomed := (List.insertionSort byAge bs).take (bs.length - MAX_BULLETS)
    bs.filter (fun b => !(doomed.any (fun d => d.id == b.id)))
  else bs

/-- The world: the `players` table and the `bullets` map, each in
iteration (insertion) order. -/
structure World where
  players : List Player
  bullets : List Bullet
  deriving DecidableEq

/-- Index-aware map used to hand each player its own `Math.random` draws. -/
def mapIdxGo (f : ℕ → Player → Player) : ℕ → List Player → List Player
  | _, [] => []
  | i, p :: ps => f i p :: mapIdxGo f (i + 1) ps

/-- `gameTick()` from `src/server.js`: clamp the delta, update every
player, move bullets and resolve bullet-vs-tank hits, resolve tank-vs-tank
overlaps among the alive tanks, then enforce the bullet population cap.
`rnd i` supplies the `Math.random()` pair a respawn of the `i`-th player
would draw this tick. -/
def gameTick (sq : ℚ → ℚ) (at2 pw : ℚ → ℚ → ℚ) (piv : ℚ) (rnd : ℕ → ℚ × ℚ)
    (now : ℤ) (dtRaw : ℚ) (w : World) : World :=
  let dt := min dtRaw (1/10)
  let ps := mapIdxGo (fun i p => update sq at2 pw piv (rnd i).1 (rnd i).2 now dt p) 0 w.players
  let bp := bulletPhase now dt w.bullets ps
  let alive := bp.2.filter (fun p => p.isAlive)
  let alive1 := resolveAll sq alive
  let ps1 := mergeBack bp.2 alive1
  let bs1 := evictBullets bp.1
  { players := ps1, bullets := bs1 }

/-! ### Concrete instances used for witnesses and counterexamples

The oracle functions below are only ever consulted at arguments where the
real `Math.sqrt` / `Math.pow` / `Math.atan2` value is either exactly the
value returned (e.g. `sqrt 1 = 1`, `sqrt 0 = 0`) or where the returned
value is immediately multiplied by `0`, so every concrete evaluation below
agrees with an exact re-execution of the JavaScript source. -/

/-- Square-root oracle for evaluations whose only consulted point is `1`. -/
def sqOne : ℚ → ℚ := fun q => if q = 1 then 1 else 0

/-- Square-root oracle for evaluations that never consult a nonzero point. -/
def sqZero : ℚ → ℚ := fun _ => 0

/-- `Math.atan2` oracle for evaluations that never consult it. -/
def at2Zero : ℚ → ℚ → ℚ := fun _ _ => 0

/-- `Math.pow` oracle for evaluations where its value is multiplied by `0`. -/
def powOne : ℚ → ℚ → ℚ := fun _ _ => 1

/-- `Math.random` oracle returning the midpoint draw. -/
def rndHalf : ℕ → ℚ × ℚ := fun _ => (1/2, 1/2)

/-- An idle alive tank sitting on the left arena boundary. -/
def cP1 : Player :=
  { id := 1, x := 15, y := 100, vx := 0, vy := 0, angle := 0, targetAngle := 0,
    hp := 100, score := 0, isAlive := true, respawnTime := 0, lastShot := 0,
    shootCooldown := 300, lastUpdate := 0,
    input := { dx := 0, dy := 0, boost := false, angle := 0 } }

/-- A second idle alive tank one unit to the right of `cP1`. -/
def cP2 : Player := { cP1 with id := 2, x := 16 }

/-- Two overlapping tanks hugging the left wall, no bullets. -/
def cW : World := { players := [cP1, cP2], bullets := [] }

/-- An alive tank with 20 health at the arena centre. -/
def cVictim : Player := { cP1 with id := 2, x := 100, y := 100, hp := 20 }

/-- A bullet owned by tank 1 sitting on `cVictim`'s centre. -/
def cB : Bullet :=
  { id := 0, x := 100, y := 100, vx := 0, vy := 0, owner := 1, createdAt := 0, angle := 0 }

/-- An alive tank with full health at the arena centre. -/
def cVictim2 : Player := { cP1 with id := 2, x := 100, y := 100 }

/-- A motionless bullet owned by tank 1 on `cVictim2`'s centre. -/
def cB2 : Bullet :=
  { id := 3, x := 100, y := 100, vx := 0, vy := 0, owner := 1, createdAt := 0, angle := 0 }

/-- An idle alive tank whose input buffer holds a pure rotation intent. -/
def cP9 : Player := { cP1 with input := { dx := 0, dy := 0, boost := false, angle := 1 } }

/-- An alive tank of the turret variant, ready to shoot. -/
def cTV : TV.Player :=
  { id := 4, x := 500, y := 300, vx := 0, vy := 0, angle := 0, targetAngle := 0,
    turretAngle := 0, targetTurretAngle := 0, hp := 100, score := 0, isAlive := true,
    respawnTime := 0, lastShot := 0, shootCooldown := 300, lastUpdate := 0,
    input := { dx := 0, dy := 0, boost := false, mouseX := 0, mouseY := 0,
               isMouseDown := false } }

/-- The bullet `cTV` produces when shooting at time 1000 with cosine 1 and
sine 0 and bullet counter 7. -/
def cB5 : Bullet :=
  { id := 7, x := cTV.x + 1 * TANK_TURRET_OFFSET, y := cTV.y + 0 * TANK_TURRET_OFFSET,
    vx := 1 * BULLET_SPEED, vy := 0 * BULLET_SPEED, owner := cTV.id, createdAt := 1000,
    angle := cTV.turretAngle }

/-- An alive tank with 95 health (dented, repairable). -/
def cP6 : Player := { cP1 with hp := 95 }

/-- Bullet number `i` of the eviction test fleet: created at time `i`. -/
def mkB (i : ℕ) : Bullet :=
  { id := i, x := 0, y := 0, vx := 0, vy := 0, owner := 0, createdAt := (i : ℤ), angle := 0 }

/-- A fleet of 51 live bullets, ids and creation times `0..50`. -/
def bs51 : List Bullet := (List.range 51).map mkB

/-- A partial `move` payload: `dx` and `boost` present, the rest absent. -/
def eC : InputPatch := { dx := some 1, dy := none, boost := some true, angle := none }

/-- A partial turret-variant payload: only `mouseX` and `mouseY` present. -/
def e2C : TV.InputPatch :=
  { dx := none, dy := none, boost := none, mouseX := some 9, mouseY := some 4,
    isMouseDown := none }

/-- Health is between 0 and `MAX_HEALTH`. -/
def hpInvP (p : Player) : Prop := 0 ≤ p.hp ∧ p.hp ≤ MAX_HEALTH

instance (p : Player) : Decidable (hpInvP p) := by unfold hpInvP; infer_instance

/-! ## Theorems

The `Rat` field operations ship `@[irreducible]`; re-exposing their
definitions lets `decide` evaluate the (fully computable) game functions
on concrete inputs inside the kernel. -/

attribute [local semireducible] Rat.add Rat.mul Rat.inv Rat.sub

/-- C4 (counterexample): the claim says the angle delta applied each tick is
the difference normalised into `(−π, π]`.  The normalisation formula
`((diff + PI) % (2*PI)) - PI` is positively homogeneous in `(PI, diff)`
jointly, so we may refute it at the rational stand-in `PI = 3`: for
`diff = -3/2 · PI` (here `-9/2`), JavaScript's sign-preserving remainder
returns the difference unchanged, far outside `(−PI, PI]` — the rotation
takes the longer path.  (At the real π the same happens for
`diff = -3π/2`.) -/
theorem c4_counterexample :
    ¬(-3 < normalizeDelta 3 (-(9/2)) ∧ normalizeDelta 3 (-(9/2)) ≤ 3) := by
  decide

/-- C4 (amended): for any positive stand-in `piv` for `Math.PI`, the delta
normalisation used by both `Player.update` variants maps any difference
`diff ≥ -piv` into `[-piv, piv)` (not `(−piv, piv]`), shifted from `diff`
by an integer multiple of `2·piv`; differences below `-piv` are returned
unchanged by JavaScript's remainder (see the counterexample). -/
theorem c4_amended (piv diff : ℚ) (hpiv : 0 < piv) (hdiff : -piv ≤ diff) :
    (-piv ≤ normalizeDelta piv diff ∧ normalizeDelta piv diff < piv) ∧
      normalizeDelta piv diff =
        diff - ((ratTrunc ((diff + piv) / (2 * piv)) : ℤ) : ℚ) * (2 * piv) := by
  have hb : (0 : ℚ) < 2 * piv := by linarith
  have ha : (0 : ℚ) ≤ diff + piv := by linarith
  have hq : (0 : ℚ) ≤ (diff + piv) / (2 * piv) := div_nonneg ha hb.le
  have ht : ratTrunc ((diff + piv) / (2 * piv)) = ⌊(diff + piv) / (2 * piv)⌋ := by
    unfold ratTrunc; rw [if_pos hq]
  have hfl : ((⌊(diff + piv) / (2 * piv)⌋ : ℤ) : ℚ) ≤ (diff + piv) / (2 * piv) :=
    Int.floor_le _
  have hfu : (diff + piv) / (2 * piv) < (⌊(diff + piv) / (2 * piv)⌋ : ℤ) + 1 :=
    Int.lt_floor_add_one _
  have hmul : ((diff + piv) / (2 * piv)) * (2 * piv) = diff + piv :=
    div_mul_cancel₀ _ hb.ne'
  constructor
  · constructor
    · unfold normalizeDelta jsRem
      rw [ht]
      nlinarith [mul_le_mul_of_nonneg_right hfl hb.le]
    · unfold normalizeDelta jsRem
      rw [ht]
      nlinarith [mul_lt_mul_of_pos_right hfu hb]
  · unfold normalizeDelta jsRem
    rw [ht]
    ring

/-- C4 (witness for the amended theorem): at `piv = 3`, `diff = -3` the
normalised delta lands in `[-3, 3)` and differs from `diff` by an integer
multiple of `2·piv`. -/
theorem c4_amended_witness :
    ((-3 : ℚ) ≤ normalizeDelta 3 (-3) ∧ normalizeDelta 3 (-3) < 3) ∧
      normalizeDelta 3 (-3) =
        -3 - ((ratTrunc ((-3 + 3) / (2 * 3)) : ℤ) : ℚ) * (2 * 3) :=
  c4_amended 3 (-3) (by norm_num) (by norm_num)

/-- C8: `Bullet.update(dt)` advances the position by exactly `velocity × dt`,
leaves the velocity components unchanged, and reports expiry exactly when
the new position leaves the arena padded by 100 units on every side or the
elapsed time since creation exceeds `BULLET_LIFETIME`. -/
theorem c8_bullet_update (b : Bullet) (dt : ℚ) (now : ℤ) :
    (bulletUpdate dt now b).1.x = b.x + b.vx * dt ∧
    (bulletUpdate dt now b).1.y = b.y + b.vy * dt ∧
    (bulletUpdate dt now b).1.vx = b.vx ∧
    (bulletUpdate dt now b).1.vy = b.vy ∧
    ((bulletUpdate dt now b).2 = false ↔
      (b.x + b.vx * dt < -100 ∨ b.x + b.vx * dt > ARENA_WIDTH + 100 ∨
       b.y + b.vy * dt < -100 ∨ b.y + b.vy * dt > ARENA_HEIGHT + 100 ∨
       now - b.createdAt > BULLET_LIFETIME)) := by
  unfold bulletUpdate
  dsimp only
  split_ifs with h
  · exact ⟨rfl, rfl, rfl, rfl, iff_of_true rfl h⟩
  · exact ⟨rfl, rfl, rfl, rfl, iff_of_false (by simp) h⟩

/-- C5: `Player.shoot()` (turret variant) returns no projectile exactly when
the tank is dead or fewer than 300 ms (the shoot cooldown) have elapsed
since its last shot; on success it records the current time as the
last-shot time and the projectile spawns at the tank centre offset by the
muzzle offset along the turret direction, with velocity
`(cos, sin) × BULLET_SPEED` (`c`, `s` are the cosine/sine of the turret
angle). -/
theorem c5_shoot (now : ℤ) (c s : ℚ) (ctr : ℕ) (p : TV.Player)
    (hcd : p.shootCooldown = 300) :
    ((TV.shoot now c s ctr p).1 = none ↔
      (p.isAlive = false ∨ now - p.lastShot < 300)) ∧
    (∀ b : Bullet, (TV.shoot now c s ctr p).1 = some b →
      b.x = p.x + c * TANK_TURRET_OFFSET ∧ b.y = p.y + s * TANK_TURRET_OFFSET ∧
      b.vx = c * BULLET_SPEED ∧ b.vy = s * BULLET_SPEED ∧ b.owner = p.id ∧
      b.createdAt = now ∧ ((TV.shoot now c s ctr p).2).lastShot = now) := by
  unfold TV.shoot
  split_ifs with h1 h2
  · exact ⟨iff_of_true rfl (Or.inl h1), fun b hb => by simp at hb⟩
  · rw [hcd] at h2
    exact ⟨iff_of_true rfl (Or.inr h2), fun b hb => by simp at hb⟩
  · rw [hcd] at h2
    refine ⟨iff_of_false (by simp) ?_, fun b hb => ?_⟩
    · rintro (h | h)
      · exact h1 h
      · exact h2 h
    · simp only [Option.some.injEq] at hb
      subst hb
      exact ⟨rfl, rfl, rfl, rfl, rfl, rfl, rfl⟩

/-- C5 (witness): a full-health tank that last shot at time 0 succeeds at
time 1000 and records the shot time. -/
theorem c5_shoot_witness :
    ((TV.shoot 1000 1 0 7 cTV).1 = none ↔
      (cTV.isAlive = false ∨ (1000 : ℤ) - cTV.lastShot < 300)) ∧
    ((TV.shoot 1000 1 0 7 cTV).2).lastShot = 1000 := by
  have h := c5_shoot 1000 1 0 7 cTV rfl
  exact ⟨h.1, (h.2 cB5 (by decide)).2.2.2.2.2.2⟩

/-- C6: `Player.repair()` fails (and changes nothing) when the tank is dead
or still inside the repair cooldown window; otherwise it records the
repair time and raises health by `REPAIR_AMOUNT` capped at `MAX_HEALTH`.
Hence two repair calls inside one cooldown window (timestamps positive, as
`Date.now()` values are) change health exactly once: the second call fails
and returns the state of the first. -/
theorem c6_repair (now1 now2 : ℤ) (lr : Option ℤ) (p : Player) :
    ((p.isAlive = false ∨ repairBlocked now1 lr = true) →
      repair now1 lr p = (false, lr, p)) ∧
    ((p.isAlive = true ∧ repairBlocked now1 lr = false) →
      repair now1 lr p =
        (true, some now1, { p with hp := min MAX_HEALTH (p.hp + REPAIR_AMOUNT) })) ∧
    (p.isAlive = true → repairBlocked now1 lr = false → 0 < now1 →
      now2 - now1 < REPAIR_COOLDOWN →
      (repair now2 (repair now1 lr p).2.1 (repair now1 lr p).2.2).1 = false ∧
      (repair now2 (repair now1 lr p).2.1 (repair now1 lr p).2.2).2.2.hp =
        min MAX_HEALTH (p.hp + REPAIR_AMOUNT) ∧
      (repair now2 (repair now1 lr p).2.1 (repair now1 lr p).2.2).2.2 =
        (repair now1 lr p).2.2) := by
  have hsucc : ∀ hA : p.isAlive = true, ∀ hB : repairBlocked now1 lr = false,
      repair now1 lr p =
        (true, some now1, { p with hp := min MAX_HEALTH (p.hp + REPAIR_AMOUNT) }) := by
    intro hA hB
    unfold repair
    rw [if_neg (by simp [hA]), if_neg (by simp [hB])]
  refine ⟨?_, ?_, ?_⟩
  · rintro (h | h) <;> unfold repair
    · rw [if_pos h]
    · split_ifs <;> rfl
  · rintro ⟨hA, hB⟩
    exact hsucc hA hB
  · intro hA hB h0 h12
    rw [hsucc hA hB]
    have hblock : repairBlocked now2 (some now1) = true := by
      unfold repairBlocked
      simp only [Bool.and_eq_true, decide_eq_true_eq]
      exact ⟨ne_of_gt h0, h12⟩
    unfold repair
    rw [if_neg (by simp [hA]), if_pos (by simp [hblock])]
    exact ⟨rfl, rfl, rfl⟩

/-- C6 (witness): a 95-health tank with no prior repair, repaired at times
1000 and 2000 (inside one 5000 ms window), ends at 100 health with the
second call failing. -/
theorem c6_repair_witness :
    (repair 2000 (repair 1000 none cP6).2.1 (repair 1000 none cP6).2.2).1 = false ∧
    (repair 2000 (repair 1000 none cP6).2.1 (repair 1000 none cP6).2.2).2.2.hp =
      min MAX_HEALTH (cP6.hp + REPAIR_AMOUNT) := by
  have h := (c6_repair 1000 2000 none cP6).2.2 rfl rfl (by decide) (by decide)
  exact ⟨h.1, h.2.1⟩

/-- C9 (counterexample): in the `server.js` variant, an alive tank with
zero directional intent but a nonzero rotation input (`inputState.angle`)
does have its target body angle changed by `applyInput`, contradicting the
claim that zero directional intent never changes the target body angle. -/
theorem c9_counterexample :
    cP9.input.dx = 0 ∧ cP9.input.dy = 0 ∧ cP9.isAlive = true ∧
      (applyInput sqZero at2Zero (1/10) cP9).targetAngle ≠ cP9.targetAngle := by
  decide

/-- C9 (amended): with zero directional intent, `applyInput` leaves the
velocity components unchanged in both variants, and leaves the target body
angle unchanged in the turret variant unconditionally; in the `server.js`
variant the target body angle is unchanged only when the rotation input
`inputState.angle` is also zero. -/
theorem c9_amended (sq : ℚ → ℚ) (at2 : ℚ → ℚ → ℚ) (dt : ℚ) (p : Player)
    (q : TV.Player) (hdx : p.input.dx = 0) (hdy : p.input.dy = 0)
    (hqx : q.input.dx = 0) (hqy : q.input.dy = 0) :
    ((applyInput sq at2 dt p).vx = p.vx ∧ (applyInput sq at2 dt p).vy = p.vy) ∧
    (p.input.angle = 0 → (applyInput sq at2 dt p).targetAngle = p.targetAngle) ∧
    ((TV.applyInput sq at2 dt q).vx = q.vx ∧ (TV.applyInput sq at2 dt q).vy = q.vy ∧
     (TV.applyInput sq at2 dt q).targetAngle = q.targetAngle) := by
  refine ⟨⟨?_, ?_⟩, ?_, ?_, ?_, ?_⟩
  · unfold applyInput; split_ifs <;> simp_all <;> (try (split <;> simp_all))
  · unfold applyInput; split_ifs <;> simp_all <;> (try (split <;> simp_all))
  · intro hang; unfold applyInput; split_ifs <;> simp_all
  · unfold TV.applyInput; split_ifs <;> simp_all <;> (try (split <;> simp_all))
  · unfold TV.applyInput; split_ifs <;> simp_all <;> (try (split <;> simp_all))
  · unfold TV.applyInput; split_ifs <;> simp_all <;> (try (split <;> simp_all))

/-- C9 (witness for the amended theorem): the idle tanks `cP1` and `cTV`
keep velocity and target body angle across `applyInput`. -/
theorem c9_amended_witness :
    (applyInput sqZero at2Zero (1/10) cP1).vx = cP1.vx ∧
    (applyInput sqZero at2Zero (1/10) cP1).targetAngle = cP1.targetAngle ∧
    (TV.applyInput sqZero at2Zero (1/10) cTV).targetAngle = cTV.targetAngle := by
  have h := c9_amended sqZero at2Zero (1/10) cP1 cTV rfl rfl rfl rfl
  exact ⟨h.1.1, h.2.1 rfl, h.2.2.2.2⟩

/-- C10: `setInputState` merges the received payload into the stored input
buffer: every present field replaces the stored value, every absent field
keeps it, and no field of the tank outside the input buffer changes
(stated for both server variants). -/
theorem c10_set_input (e : InputPatch) (p : Player) (e2 : TV.InputPatch)
    (q : TV.Player) :
    ((∀ v, e.dx = some v → (setInputState e p).input.dx = v) ∧
     (e.dx = none → (setInputState e p).input.dx = p.input.dx)) ∧
    ((∀ v, e.dy = some v → (setInputState e p).input.dy = v) ∧
     (e.dy = none → (setInputState e p).input.dy = p.input.dy)) ∧
    ((∀ v, e.boost = some v → (setInputState e p).input.boost = v) ∧
     (e.boost = none → (setInputState e p).input.boost = p.input.boost)) ∧
    ((∀ v, e.angle = some v → (setInputState e p).input.angle = v) ∧
     (e.angle = none → (setInputState e p).input.angle = p.input.angle)) ∧
    (setInputState e p = { p with input := (setInputState e p).input }) ∧
    ((∀ v, e2.dx = some v → (TV.setInputState e2 q).input.dx = v) ∧
     (e2.dx = none → (TV.setInputState e2 q).input.dx = q.input.dx)) ∧
    ((∀ v, e2.dy = some v → (TV.setInputState e2 q).input.dy = v) ∧
     (e2.dy = none → (TV.setInputState e2 q).input.dy = q.input.dy)) ∧
    ((∀ v, e2.boost = some v → (TV.setInputState e2 q).input.boost = v) ∧
     (e2.boost = none → (TV.setInputState e2 q).input.boost = q.input.boost)) ∧
    ((∀ v, e2.mouseX = some v → (TV.setInputState e2 q).input.mouseX = v) ∧
     (e2.mouseX = none → (TV.setInputState e2 q).input.mouseX = q.input.mouseX)) ∧
    ((∀ v, e2.mouseY = some v → (TV.setInputState e2 q).input.mouseY = v) ∧
     (e2.mouseY = none → (TV.setInputState e2 q).input.mouseY = q.input.mouseY)) ∧
    ((∀ v, e2.isMouseDown = some v → (TV.setInputState e2 q).input.isMouseDown = v) ∧
     (e2.isMouseDown = none →
        (TV.setInputState e2 q).input.isMouseDown = q.input.isMouseDown)) ∧
    (TV.setInputState e2 q = { q with input := (TV.setInputState e2 q).input }) := by
  refine ⟨⟨fun v h => by simp [setInputState, h], fun h => by simp [setInputState, h]⟩,
          ⟨fun v h => by simp [setInputState, h], fun h => by simp [setInputState, h]⟩,
          ⟨fun v h => by simp [setInputState, h], fun h => by simp [setInputState, h]⟩,
          ⟨fun v h => by simp [setInputState, h], fun h => by simp [setInputState, h]⟩,
          rfl,
          ⟨fun v h => by simp [TV.setInputState, h], fun h => by simp [TV.setInputState, h]⟩,
          ⟨fun v h => by simp [TV.setInputState, h], fun h => by simp [TV.setInputState, h]⟩,
          ⟨fun v h => by simp [TV.setInputState, h], fun h => by simp [TV.setInputState, h]⟩,
          ⟨fun v h => by simp [TV.setInputState, h], fun h => by simp [TV.setInputState, h]⟩,
          ⟨fun v h => by simp [TV.setInputState, h], fun h => by simp [TV.setInputState, h]⟩,
          ⟨fun v h => by simp [TV.setInputState, h], fun h => by simp [TV.setInputState, h]⟩,
          rfl⟩

/-- C10 (witness): merging a payload carrying only `dx`/`boost` (resp. only
`mouseX`/`mouseY`) updates exactly those input fields and nothing else. -/
theorem c10_set_input_witness :
    (setInputState eC cP1).input.dx = 1 ∧
    (setInputState eC cP1).input.dy = cP1.input.dy ∧
    (TV.setInputState e2C cTV).input.mouseX = 9 ∧
    (TV.setInputState e2C cTV).input.dx = cTV.input.dx ∧
    setInputState eC cP1 = { cP1 with input := (setInputState eC cP1).input } := by
  have h := c10_set_input eC cP1 e2C cTV
  exact ⟨h.1.1 1 rfl, h.2.1.2 rfl, h.2.2.2.2.2.2.2.2.1.1 9 rfl,
         h.2.2.2.2.2.1.2 rfl, h.2.2.2.2.1⟩

/-- C3: when two distinct alive tanks overlap at centre distance
`0 < d < 2·TANK_RADIUS` (`d` being the exact square root of the squared
centre distance, as `Math.sqrt` returns), the resolution moves each tank
by half the penetration depth `(2·TANK_RADIUS − d)/2` along the collision
normal in opposite directions, leaves the pair at squared distance exactly
`(2·TANK_RADIUS)²` (hence distance `≥ 2·TANK_RADIUS`), and applies
velocity impulses equal in magnitude and opposite in direction; a pair at
exactly zero distance is left unchanged. -/
theorem c3_tank_collision :
    (∀ (sq : ℚ → ℚ) (p1 p2 : Player) (d : ℚ),
      sq ((p1.x - p2.x) * (p1.x - p2.x) + (p1.y - p2.y) * (p1.y - p2.y)) = d →
      d * d = (p1.x - p2.x) * (p1.x - p2.x) + (p1.y - p2.y) * (p1.y - p2.y) →
      0 < d → d < TANK_RADIUS * 2 →
      ((resolvePair sq p1 p2).1.x =
          p1.x + (p1.x - p2.x) / d * ((TANK_RADIUS * 2 - d) / 2) ∧
       (resolvePair sq p1 p2).1.y =
          p1.y + (p1.y - p2.y) / d * ((TANK_RADIUS * 2 - d) / 2) ∧
       (resolvePair sq p1 p2).2.x =
          p2.x - (p1.x - p2.x) / d * ((TANK_RADIUS * 2 - d) / 2) ∧
       (resolvePair sq p1 p2).2.y =
          p2.y - (p1.y - p2.y) / d * ((TANK_RADIUS * 2 - d) / 2)) ∧
      (((resolvePair sq p1 p2).1.x - (resolvePair sq p1 p2).2.x) *
         ((resolvePair sq p1 p2).1.x - (resolvePair sq p1 p2).2.x) +
       ((resolvePair sq p1 p2).1.y - (resolvePair sq p1 p2).2.y) *
         ((resolvePair sq p1 p2).1.y - (resolvePair sq p1 p2).2.y) =
        (TANK_RADIUS * 2) * (TANK_RADIUS * 2)) ∧
      ((resolvePair sq p1 p2).1.vx - p1.vx = -((resolvePair sq p1 p2).2.vx - p2.vx) ∧
       (resolvePair sq p1 p2).1.vy - p1.vy = -((resolvePair sq p1 p2).2.vy - p2.vy))) ∧
    (∀ (sq : ℚ → ℚ) (p1 p2 : Player),
      sq ((p1.x - p2.x) * (p1.x - p2.x) + (p1.y - p2.y) * (p1.y - p2.y)) = 0 →
      resolvePair sq p1 p2 = (p1, p2)) := by
  constructor
  · intro sq p1 p2 d hsq hdd hd0 hdR
    have hdne : d ≠ 0 := ne_of_gt hd0
    have hout : (p1.x - p2.x) * (p1.x - p2.x) + (p1.y - p2.y) * (p1.y - p2.y) <
        (TANK_RADIUS * 2) * (TANK_RADIUS * 2) := by
      rw [← hdd]
      exact mul_self_lt_mul_self hd0.le hdR
    unfold resolvePair
    rw [if_pos hout, hsq, if_pos ⟨hdR, hd0⟩]
    refine ⟨⟨rfl, rfl, rfl, rfl⟩, ?_, by constructor <;> ring⟩
    dsimp only
    field_simp
    linear_combination (16 * TANK_RADIUS ^ 2) * hdd.symm
  · intro sq p1 p2 h
    unfold resolvePair
    dsimp only
    rw [h]
    split_ifs with h1 h2
    · exact absurd h2.2 (lt_irrefl 0)
    · rfl
    · rfl

/-- C3 (witness): the boundary-hugging pair `cP1`, `cP2` at distance 1
separates to exact squared distance `(2·TANK_RADIUS)²`, and a coincident
pair is untouched. -/
theorem c3_tank_collision_witness :
    ((resolvePair sqOne cP1 cP2).1.x - (resolvePair sqOne cP1 cP2).2.x) *
        ((resolvePair sqOne cP1 cP2).1.x - (resolvePair sqOne cP1 cP2).2.x) +
      ((resolvePair sqOne cP1 cP2).1.y - (resolvePair sqOne cP1 cP2).2.y) *
        ((resolvePair sqOne cP1 cP2).1.y - (resolvePair sqOne cP1 cP2).2.y) =
      (TANK_RADIUS * 2) * (TANK_RADIUS * 2) ∧
    resolvePair sqZero cP1 cP1 = (cP1, cP1) := by
  have h := c3_tank_collision
  exact ⟨(h.1 sqOne cP1 cP2 1 (by decide) (by decide) (by decide) (by decide)).2.1,
         h.2 sqZero cP1 cP1 rfl⟩

/-- On an alive victim, `takeDamage` moves health to `max 0 (hp − dmg)`:
the subtraction, clamped to zero by `die()` on a lethal hit. -/
theorem takeDamage_hp_eq (now : ℤ) (dmg : ℚ) (p : Player) (h : p.isAlive = true) :
    (takeDamage now dmg p).1.hp = max 0 (p.hp - dmg) := by
  unfold takeDamage
  rw [if_neg (by simp [h])]
  dsimp only
  split_ifs with h1
  · exact (max_eq_left h1).symm
  · exact (max_eq_right (le_of_lt (lt_of_not_le h1))).symm

/-- The hit scan never changes the number of tanks. -/
theorem scanHit_length (now : ℤ) (b : Bullet) :
    ∀ ts : List Player, (scanHit now b ts).1.length = ts.length := by
  intro ts
  induction ts with
  | nil => rfl
  | cons p ps ih =>
    unfold scanHit
    split_ifs <;> simp [ih]

/-- Health after the hit scan, position by position: the first tank the
bullet hits (and only it) moves to `max 0 (hp − BULLET_DAMAGE)`. -/
theorem scanHit_hp_get (now : ℤ) (b : Bullet) :
    ∀ (ts : List Player) (i : ℕ),
      (((scanHit now b ts).1)[i]?).map Player.hp =
        if firstHitIdx b ts = some i
        then (ts[i]?).map (fun p => max 0 (p.hp - BULLET_DAMAGE))
        else (ts[i]?).map Player.hp := by
  intro ts
  induction ts with
  | nil => intro i; simp [scanHit, firstHitIdx]
  | cons p ps ih =>
    intro i
    by_cases h : bulletHits b p
    · cases i with
      | zero =>
        simp only [scanHit, firstHitIdx, if_pos h, List.getElem?_cons_zero,
          Option.map_some']
        simp [takeDamage_hp_eq now BULLET_DAMAGE p h.1]
      | succ j =>
        simp only [scanHit, firstHitIdx, if_pos h, List.getElem?_cons_succ]
        rw [if_neg (by simp)]
    · cases i with
      | zero =>
        simp only [scanHit, firstHitIdx, if_neg h, List.getElem?_cons_zero]
        rw [if_neg (by cases hf : firstHitIdx b ps <;> simp [hf])]
      | succ j =>
        simp only [scanHit, firstHitIdx, if_neg h, List.getElem?_cons_succ]
        rw [ih j]
        cases hf : firstHitIdx b ps <;> simp [hf]

/-- The attacker score bonus never changes anyone's health. -/
theorem addScore_hp_get (a : ℕ) (ts : List Player) (i : ℕ) :
    ((addScore a ts)[i]?).map Player.hp = (ts[i]?).map Player.hp := by
  cases h : ts[i]? with
  | none => simp [addScore, List.getElem?_map, h]
  | some q =>
    simp only [addScore, List.getElem?_map, h, Option.map_some']
    split_ifs <;> rfl

/-- C2 (amended): each tick, a projectile damages at most one tank — the
first alive non-owner tank in iteration order within
`(TANK_RADIUS + BULLET_RADIUS)²` squared distance — whose health becomes
`max 0 (hp − BULLET_DAMAGE)` (a loss of exactly `BULLET_DAMAGE` whenever
`hp ≥ BULLET_DAMAGE`; `die()` clamps health at zero otherwise); every
other tank's health is untouched, the tank table keeps its size, and a
projectile that hit is dropped from the tick's surviving bullet list, so
it cannot affect any later tick. -/
theorem c2_amended (now : ℤ) (b : Bullet) (dt : ℚ) (ts : List Player)
    (bs : List Bullet) :
    (∀ i : ℕ,
      (((bulletHitPhase now b ts).1)[i]?).map Player.hp =
        if firstHitIdx b ts = some i
        then (ts[i]?).map (fun p => max 0 (p.hp - BULLET_DAMAGE))
        else (ts[i]?).map Player.hp) ∧
    ((bulletHitPhase now b ts).1.length = ts.length) ∧
    ((bulletUpdate dt now b).2 = true →
      (bulletHitPhase now (bulletUpdate dt now b).1 ts).2 = true →
      (bulletPhase now dt (b :: bs) ts).1 =
        (bulletPhase now dt bs (bulletHitPhase now (bulletUpdate dt now b).1 ts).1).1) := by
  refine ⟨?_, ?_, ?_⟩
  · intro i
    unfold bulletHitPhase
    dsimp only
    by_cases hd : (scanHit now b ts).2.1 = true
    · rw [if_pos hd, addScore_hp_get]
      exact scanHit_hp_get now b ts i
    · rw [if_neg hd]
      exact scanHit_hp_get now b ts i
  · unfold bulletHitPhase
    dsimp only
    by_cases hd : (scanHit now b ts).2.1 = true
    · rw [if_pos hd]
      simp [addScore, scanHit_length]
    · rw [if_neg hd]
      exact scanHit_length now b ts
  · intro h1 h2
    conv_lhs => unfold bulletPhase
    rw [if_neg (by simp [h1]), if_pos h2]

/-- C2 (counterexample): the claim says the struck tank loses exactly
`BULLET_DAMAGE` health.  A 20-health tank struck by `cB` ends at 0 health:
it loses 20, not `BULLET_DAMAGE = 25`, because `die()` clamps health to
zero. -/
theorem c2_counterexample :
    ((bulletHitPhase 1000 cB [cVictim]).1.head?.map (fun p => cVictim.hp - p.hp)) =
        some 20 ∧
      (20 : ℚ) ≠ BULLET_DAMAGE := by
  decide

/-- C2 (witness for the amended theorem): a full-health victim on the
bullet's path takes exactly 25 damage and the bullet is removed from the
tick's surviving list. -/
theorem c2_amended_witness :
    (((bulletHitPhase 1000 cB2 [cVictim2]).1)[0]?).map Player.hp =
        some (max 0 (cVictim2.hp - BULLET_DAMAGE)) ∧
      (bulletPhase 1000 0 [cB2] [cVictim2]).1 = [] := by
  have h := c2_amended 1000 cB2 0 [cVictim2] []
  constructor
  · rw [h.1 0]
    decide
  · rw [h.2.2 (by decide) (by decide)]
    rfl

/-- For a bullet of the table, being flagged by the eviction id-set is the
same as lying in the doomed prefix of the creation-time sort (bullet ids
are unique for the server's lifetime). -/
theorem evict_flag_iff (bs : List Bullet) (hnd : (bs.map (fun b => b.id)).Nodup)
    (k : ℕ) (b : Bullet) (hb : b ∈ bs) :
    (((List.insertionSort byAge bs).take k).any (fun d => d.id == b.id)) = true ↔
      b ∈ (List.insertionSort byAge bs).take k := by
  have hperm := List.perm_insertionSort byAge bs
  have hsub : (List.insertionSort byAge bs).take k ⊆ bs := fun x hx =>
    hperm.subset (List.take_subset k _ hx)
  constructor
  · intro h
    obtain ⟨d, hd, hid⟩ := List.any_eq_true.mp h
    have : d = b :=
      List.inj_on_of_nodup_map hnd (hsub hd) hb (beq_iff_eq.mp hid)
    exact this ▸ hd
  · intro h
    exact List.any_eq_true.mpr ⟨b, h, beq_self_eq_true _⟩

/-- C7: with unique bullet ids, whenever the live-projectile count exceeds
`MAX_BULLETS` the eviction pass leaves exactly `MAX_BULLETS` bullets and
every evicted bullet's creation time is no later than every survivor's
(the oldest are evicted); a table at or under the cap is untouched. -/
theorem c7_eviction :
    (∀ bs : List Bullet, (bs.map (fun b => b.id)).Nodup → MAX_BULLETS < bs.length →
      (evictBullets bs).length = MAX_BULLETS ∧
      (∀ e ∈ bs, e ∉ evictBullets bs → ∀ s ∈ evictBullets bs,
        e.createdAt ≤ s.createdAt)) ∧
    (∀ bs : List Bullet, bs.length ≤ MAX_BULLETS → evictBullets bs = bs) := by
  constructor
  · intro bs hnd hlen
    have hevict : evictBullets bs =
        bs.filter (fun b =>
          !(((List.insertionSort byAge bs).take (bs.length - MAX_BULLETS)).any
            (fun d => d.id == b.id))) := by
      unfold evictBullets
      rw [if_pos hlen]
    set k := bs.length - MAX_BULLETS with hkdef
    set sorted := List.insertionSort byAge bs with hsdef
    set doomed := sorted.take k with hddef
    have hperm : sorted.Perm bs := List.perm_insertionSort byAge bs
    have hbs_nd : bs.Nodup := List.Nodup.of_map _ hnd
    have hsorted_nd : sorted.Nodup := hperm.nodup_iff.mpr hbs_nd
    have hdoomed_nd : doomed.Nodup := (List.take_sublist k sorted).nodup hsorted_nd
    have hsub : doomed ⊆ bs := fun x hx => hperm.subset (List.take_subset k sorted hx)
    have hk : k ≤ bs.length := Nat.sub_le _ _
    have hdlen : doomed.length = k := by
      rw [hddef, List.length_take, hperm.length_eq, Nat.min_eq_left hk]
    have hflag : ∀ b ∈ bs,
        (doomed.any (fun d => d.id == b.id)) = true ↔ b ∈ doomed := fun b hb =>
      evict_flag_iff bs hnd k b hb
    constructor
    · -- the survivor count is exactly the cap
      have hcongr : bs.filter (fun b => doomed.any (fun d => d.id == b.id)) =
          bs.filter (fun b => decide (b ∈ doomed)) :=
        List.filter_congr (fun x hx => by
          by_cases h : (doomed.any (fun d => d.id == x.id)) = true
          · simp [h, (hflag x hx).mp h]
          · have hx' : x ∉ doomed := fun hc => h ((hflag x hx).mpr hc)
            simp [Bool.eq_false_iff.mpr h, hx'])
      have hfin : (bs.filter (fun b => decide (b ∈ doomed))).toFinset =
          doomed.toFinset := by
        ext x
        simp only [List.toFinset_filter, decide_eq_true_eq, Finset.mem_filter,
          List.mem_toFinset]
        exact ⟨fun h => h.2, fun h => ⟨hsub h, h⟩⟩
      have hflen : (bs.filter (fun b => doomed.any (fun d => d.id == b.id))).length
          = k := by
        rw [hcongr, ← List.toFinset_card_of_nodup (hbs_nd.filter _), hfin,
          List.toFinset_card_of_nodup hdoomed_nd, hdlen]
      have hsplit := List.length_eq_length_filter_add
        (fun b => doomed.any (fun d => d.id == b.id)) (l := bs)
      rw [hevict]
      omega
    · -- every evicted bullet is at least as old as every survivor
      intro e he hemem s hs
      rw [hevict] at hemem hs
      have he_doomed : e ∈ doomed := by
        by_contra hc
        have hq : (doomed.any (fun d => d.id == e.id)) = false :=
          Bool.eq_false_iff.mpr (fun h => hc ((hflag e he).mp h))
        exact hemem (List.mem_filter.mpr ⟨he, by simp [hq]⟩)
      have hs_bs : s ∈ bs := (List.mem_filter.mp hs).1
      have hs_not_doomed : s ∉ doomed := by
        intro hc
        have := (List.mem_filter.mp hs).2
        rw [(hflag s hs_bs).mpr hc] at this
        cases this
      have hs_drop : s ∈ sorted.drop k := by
        have : s ∈ doomed ++ sorted.drop k := by
          rw [hddef, List.take_append_drop]
          exact hperm.mem_iff.mpr hs_bs
        rcases List.mem_append.mp this with h | h
        · exact absurd h hs_not_doomed
        · exact h
      have hpw : List.Pairwise byAge (doomed ++ sorted.drop k) := by
        rw [hddef, List.take_append_drop]
        exact List.sorted_insertionSort byAge bs
      exact (List.pairwise_append.mp hpw).2.2 e he_doomed s hs_drop
  · intro bs h
    unfold evictBullets
    rw [if_neg (not_lt.mpr h)]

/-- C7 (witness): with 51 live bullets (ids and creation times `0..50`) and
cap 50, exactly 50 remain and the evicted bullet (`mkB 0`, the oldest) is
no newer than the surviving `mkB 50`. -/
theorem c7_eviction_witness :
    (evictBullets bs51).length = MAX_BULLETS ∧
      (mkB 0).createdAt ≤ (mkB 50).createdAt := by
  have h := c7_eviction.1 bs51 (by decide) (by decide)
  exact ⟨h.1, h.2 (mkB 0) (by decide) (by decide) (mkB 50) (by decide)⟩

/-- `applyInput` never touches health or the alive flag. -/
theorem applyInput_keeps (sq : ℚ → ℚ) (at2 : ℚ → ℚ → ℚ) (dt : ℚ) (p : Player) :
    (applyInput sq at2 dt p).hp = p.hp ∧ (applyInput sq at2 dt p).isAlive = p.isAlive := by
  constructor <;> (unfold applyInput; split_ifs <;> simp_all <;> (try (split <;> simp_all)))

/-- Boundary clamping never touches health or the alive flag. -/
theorem clampBounds_keeps (p : Player) :
    (clampBounds p).hp = p.hp ∧ (clampBounds p).isAlive = p.isAlive := by
  constructor <;> (unfold clampBounds; dsimp only; split_ifs <;> simp_all)

/-- After boundary clamping the position is inside
`[TANK_RADIUS, ARENA_DIM − TANK_RADIUS]` on both axes. -/
theorem clampBounds_bounds (p : Player) :
    TANK_RADIUS ≤ (clampBounds p).x ∧ (clampBounds p).x ≤ ARENA_WIDTH - TANK_RADIUS ∧
    TANK_RADIUS ≤ (clampBounds p).y ∧ (clampBounds p).y ≤ ARENA_HEIGHT - TANK_RADIUS := by
  unfold clampBounds
  dsimp only
  split_ifs <;>
    refine ⟨?_, ?_, ?_, ?_⟩ <;>
    simp_all [TANK_RADIUS, ARENA_WIDTH, ARENA_HEIGHT] <;> linarith

/-- `Player.update` either keeps health or resets it to `MAX_HEALTH` (on
respawn). -/
theorem update_hp_eq (sq : ℚ → ℚ) (at2 pw : ℚ → ℚ → ℚ) (piv rx ry : ℚ) (now : ℤ)
    (dt : ℚ) (p : Player) :
    (update sq at2 pw piv rx ry now dt p).hp = p.hp ∨
      (update sq at2 pw piv rx ry now dt p).hp = MAX_HEALTH := by
  unfold update
  split_ifs
  · right; rfl
  · left; rfl
  · left
    dsimp only
    rw [(clampBounds_keeps _).1]
    exact (applyInput_keeps sq at2 dt p).1

/-- `Player.update` preserves the health interval. -/
theorem update_hp_inv (sq : ℚ → ℚ) (at2 pw : ℚ → ℚ → ℚ) (piv rx ry : ℚ) (now : ℤ)
    (dt : ℚ) (p : Player) (h : hpInvP p) :
    hpInvP (update sq at2 pw piv rx ry now dt p) := by
  rcases update_hp_eq sq at2 pw piv rx ry now dt p with he | he <;>
    unfold hpInvP at * <;> rw [he]
  · exact h
  · unfold MAX_HEALTH; norm_num

/-- An alive tank coming out of `Player.update` sits inside the arena
bounds (respawn draws are hypothesized to be `Math.random()` values in
`[0, 1]`). -/
theorem update_alive_bounds (sq : ℚ → ℚ) (at2 pw : ℚ → ℚ → ℚ) (piv rx ry : ℚ)
    (now : ℤ) (dt : ℚ) (p : Player) (h0 : 0 ≤ rx) (h1 : rx ≤ 1) (h2 : 0 ≤ ry)
    (h3 : ry ≤ 1) (ha : (update sq at2 pw piv rx ry now dt p).isAlive = true) :
    TANK_RADIUS ≤ (update sq at2 pw piv rx ry now dt p).x ∧
    (update sq at2 pw piv rx ry now dt p).x ≤ ARENA_WIDTH - TANK_RADIUS ∧
    TANK_RADIUS ≤ (update sq at2 pw piv rx ry now dt p).y ∧
    (update sq at2 pw piv rx ry now dt p).y ≤ ARENA_HEIGHT - TANK_RADIUS := by
  unfold update at ha ⊢
  split_ifs at ha ⊢ with hd hr
  · unfold respawn
    dsimp only
    unfold TANK_RADIUS ARENA_WIDTH ARENA_HEIGHT
    refine ⟨by nlinarith, by nlinarith, by nlinarith, by nlinarith⟩
  · rw [hd] at ha
    cases ha
  · exact clampBounds_bounds _

/-- `takeDamage` with nonnegative damage preserves the health interval. -/
theorem takeDamage_hpInv (now : ℤ) (dmg : ℚ) (p : Player) (hd : 0 ≤ dmg)
    (h : hpInvP p) : hpInvP (takeDamage now dmg p).1 := by
  unfold takeDamage
  unfold hpInvP at *
  dsimp only
  split_ifs with h1 h2
  · exact h
  · dsimp only
    unfold MAX_HEALTH
    norm_num
  · dsimp only
    constructor
    · linarith [lt_of_not_le h2]
    · linarith [h.2]

/-- The hit scan preserves the health interval of every tank. -/
theorem scanHit_hpInv (now : ℤ) (b : Bullet) :
    ∀ ts : List Player, (∀ p ∈ ts, hpInvP p) →
      ∀ q ∈ (scanHit now b ts).1, hpInvP q := by
  intro ts
  induction ts with
  | nil => intro _ q hq; simp [scanHit] at hq
  | cons p ps ih =>
    intro hts q hq
    unfold scanHit at hq
    split_ifs at hq with h
    · rcases List.mem_cons.mp hq with rfl | hq2
      · exact takeDamage_hpInv now BULLET_DAMAGE p (by unfold BULLET_DAMAGE; norm_num)
          (hts p (List.mem_cons_self p ps))
      · exact hts q (List.mem_cons_of_mem p hq2)
    · rcases List.mem_cons.mp hq with rfl | hq2
      · exact hts q (List.mem_cons_self q ps)
      · exact ih (fun r hr => hts r (List.mem_cons_of_mem p hr)) q hq2

/-- The attacker score bonus preserves the health interval. -/
theorem addScore_hpInv (a : ℕ) (ts : List Player) (h : ∀ p ∈ ts, hpInvP p) :
    ∀ q ∈ addScore a ts, hpInvP q := by
  intro q hq
  obtain ⟨r, hr, hre⟩ := List.mem_map.mp hq
  have := h r hr
  unfold hpInvP at *
  rw [← hre]
  split_ifs <;> exact this

/-- One bullet's hit pass preserves the health interval of every tank. -/
theorem bulletHitPhase_hpInv (now : ℤ) (b : Bullet) (ts : List Player)
    (h : ∀ p ∈ ts, hpInvP p) : ∀ q ∈ (bulletHitPhase now b ts).1, hpInvP q := by
  unfold bulletHitPhase
  dsimp only
  split_ifs with hd
  · exact addScore_hpInv _ _ (scanHit_hpInv now b ts h)
  · exact scanHit_hpInv now b ts h

/-- The whole bullet phase preserves the health interval of every tank. -/
theorem bulletPhase_hpInv (now : ℤ) (dt : ℚ) :
    ∀ (bs : List Bullet) (ts : List Player), (∀ p ∈ ts, hpInvP p) →
      ∀ q ∈ (bulletPhase now dt bs ts).2, hpInvP q := by
  intro bs
  induction bs with
  | nil => intro ts h q hq; exact h q hq
  | cons b bs ih =>
    intro ts h q hq
    unfold bulletPhase at hq
    dsimp only at hq
    split_ifs at hq with h1 h2
    · exact ih ts h q hq
    · exact ih _ (bulletHitPhase_hpInv now _ ts h) q hq
    · exact ih _ (bulletHitPhase_hpInv now _ ts h) q hq

/-- A tank-pair resolution never touches health. -/
theorem resolvePair_hp (sq : ℚ → ℚ) (p1 p2 : Player) :
    (resolvePair sq p1 p2).1.hp = p1.hp ∧ (resolvePair sq p1 p2).2.hp = p2.hp := by
  unfold resolvePair
  dsimp only
  split_ifs <;> exact ⟨rfl, rfl⟩

/-- One row of the pairwise loop never touches health. -/
theorem resolveStep_hp (sq : ℚ → ℚ) :
    ∀ (ps : List Player) (p : Player),
      (resolveStep sq p ps).1.hp = p.hp ∧
      (resolveStep sq p ps).2.map Player.hp = ps.map Player.hp := by
  intro ps
  induction ps with
  | nil => intro p; exact ⟨rfl, rfl⟩
  | cons q qs ih =>
    intro p
    unfold resolveStep
    dsimp only
    constructor
    · rw [(ih _).1, (resolvePair_hp sq p q).1]
    · simp only [List.map_cons]
      rw [(resolvePair_hp sq p q).2, (ih _).2]

/-- The full pairwise loop never touches health. -/
theorem resolveAllGo_hp (sq : ℚ → ℚ) :
    ∀ (n : ℕ) (ps : List Player),
      (resolveAllGo sq n ps).map Player.hp = ps.map Player.hp := by
  intro n
  induction n with
  | zero => intro ps; cases ps <;> rfl
  | succ n ih =>
    intro ps
    cases ps with
    | nil => rfl
    | cons p ps =>
      unfold resolveAllGo
      dsimp only
      simp only [List.map_cons]
      rw [(resolveStep_hp sq ps p).1, ih, (resolveStep_hp sq ps p).2]

/-- Every tank of the merged table comes from one of the two inputs. -/
theorem mergeBack_mem :
    ∀ (ps qs : List Player) (q : Player), q ∈ mergeBack ps qs → q ∈ ps ∨ q ∈ qs := by
  intro ps
  induction ps with
  | nil => intro qs q hq; simp [mergeBack] at hq
  | cons p ps ih =>
    intro qs q hq
    unfold mergeBack at hq
    split_ifs at hq with h
    · cases qs with
      | nil =>
        rcases List.mem_cons.mp hq with rfl | h2
        · exact Or.inl (List.mem_cons_self q ps)
        · rcases ih [] q h2 with h3 | h3
          · exact Or.inl (List.mem_cons_of_mem p h3)
          · simp at h3
      | cons r rs =>
        rcases List.mem_cons.mp hq with rfl | h2
        · exact Or.inr (List.mem_cons_self q rs)
        · rcases ih rs q h2 with h3 | h3
          · exact Or.inl (List.mem_cons_of_mem p h3)
          · exact Or.inr (List.mem_cons_of_mem r h3)
    · rcases List.mem_cons.mp hq with rfl | h2
      · exact Or.inl (List.mem_cons_self q ps)
      · rcases ih qs q h2 with h3 | h3
        · exact Or.inl (List.mem_cons_of_mem p h3)
        · exact Or.inr h3

/-- A list whose health multiset agrees with an invariant-satisfying list
satisfies the health invariant. -/
theorem hpInv_of_map_eq {l1 l2 : List Player}
    (h : l2.map Player.hp = l1.map Player.hp) (hi : ∀ p ∈ l1, hpInvP p) :
    ∀ q ∈ l2, hpInvP q := by
  intro q hq
  have hmem : q.hp ∈ l2.map Player.hp := List.mem_map_of_mem Player.hp hq
  rw [h] at hmem
  obtain ⟨r, hr, hre⟩ := List.mem_map.mp hmem
  unfold hpInvP at *
  rw [← hre]
  exact hi r hr

/-- Every element of the indexed map is the image of an input element. -/
theorem mapIdxGo_mem (f : ℕ → Player → Player) :
    ∀ (l : List Player) (i : ℕ) (q : Player),
      q ∈ mapIdxGo f i l → ∃ j p, p ∈ l ∧ q = f j p := by
  intro l
  induction l with
  | nil => intro i q hq; simp [mapIdxGo] at hq
  | cons p ps ih =>
    intro i q hq
    unfold mapIdxGo at hq
    rcases List.mem_cons.mp hq with rfl | h2
    · exact ⟨i, p, List.mem_cons_self p ps, rfl⟩
    · obtain ⟨j, r, hr, he⟩ := ih (i + 1) q h2
      exact ⟨j, r, List.mem_cons_of_mem p hr, he⟩

/-- C1 (amended): health stays in `[0, MAX_HEALTH]` across every `gameTick`
and across `repair` (the only health-raising handler), and an alive tank's
position is inside `[TANK_RADIUS, ARENA_DIM − TANK_RADIUS]` on both axes
right after its `Player.update`; the tank-vs-tank resolution later in the
same tick can push an alive tank back outside those bounds (see the
counterexample), so the position bound holds after each update, not at the
end of every full tick. -/
theorem c1_amended :
    (∀ (sq : ℚ → ℚ) (at2 pw : ℚ → ℚ → ℚ) (piv : ℚ) (rnd : ℕ → ℚ × ℚ) (now : ℤ)
        (dtRaw : ℚ) (w : World),
      (∀ p ∈ w.players, hpInvP p) →
      ∀ q ∈ (gameTick sq at2 pw piv rnd now dtRaw w).players, hpInvP q) ∧
    (∀ (now : ℤ) (lr : Option ℤ) (p : Player), hpInvP p →
      hpInvP (repair now lr p).2.2) ∧
    (∀ (sq : ℚ → ℚ) (at2 pw : ℚ → ℚ → ℚ) (piv rx ry : ℚ) (now : ℤ) (dt : ℚ)
        (p : Player), 0 ≤ rx → rx ≤ 1 → 0 ≤ ry → ry ≤ 1 →
      (update sq at2 pw piv rx ry now dt p).isAlive = true →
      TANK_RADIUS ≤ (update sq at2 pw piv rx ry now dt p).x ∧
      (update sq at2 pw piv rx ry now dt p).x ≤ ARENA_WIDTH - TANK_RADIUS ∧
      TANK_RADIUS ≤ (update sq at2 pw piv rx ry now dt p).y ∧
      (update sq at2 pw piv rx ry now dt p).y ≤ ARENA_HEIGHT - TANK_RADIUS) := by
  refine ⟨?_, ?_, ?_⟩
  · intro sq at2 pw piv rnd now dtRaw w hw q hq
    have h1 : ∀ p ∈ mapIdxGo
        (fun i p => update sq at2 pw piv (rnd i).1 (rnd i).2 now (min dtRaw (1/10)) p)
        0 w.players, hpInvP p := by
      intro p hp
      obtain ⟨j, r, hr, he⟩ := mapIdxGo_mem _ _ _ _ hp
      rw [he]
      exact update_hp_inv _ _ _ _ _ _ _ _ _ (hw r hr)
    have h2 : ∀ p ∈ (bulletPhase now (min dtRaw (1/10)) w.bullets
        (mapIdxGo
          (fun i p => update sq at2 pw piv (rnd i).1 (rnd i).2 now (min dtRaw (1/10)) p)
          0 w.players)).2, hpInvP p :=
      bulletPhase_hpInv now (min dtRaw (1/10)) w.bullets _ h1
    rcases mergeBack_mem _ _ _ hq with h | h
    · exact h2 q h
    · refine hpInv_of_map_eq (resolveAllGo_hp sq _ _) ?_ q h
      intro p hp
      exact h2 p (List.mem_of_mem_filter hp)
  · intro now lr p h
    unfold repair
    split_ifs with h1 h2
    · exact h
    · exact h
    · unfold hpInvP at *
      dsimp only
      unfold MAX_HEALTH REPAIR_AMOUNT at *
      constructor
      · rw [le_min_iff]
        constructor <;> linarith [h.1]
      · exact min_le_left _ _
  · intro sq at2 pw piv rx ry now dt p h0 h1 h2 h3 ha
    exact update_alive_bounds sq at2 pw piv rx ry now dt p h0 h1 h2 h3 ha

/-- C1 (counterexample): after one full `gameTick`, the claim's position
bound fails: two alive overlapping tanks near the left wall (`cP1` at
`x = 15`, `cP2` at `x = 16`, distance 1) are separated by the tank-vs-tank
resolution, which pushes `cP1` to `x = 1/2 < TANK_RADIUS` without
re-clamping; `cP1` is still alive at the end of the tick.  The oracles are
consulted only at `sqrt 1 = 1` and at points whose result is multiplied by
zero (the tanks are motionless with zero input). -/
theorem c1_counterexample :
    (((gameTick sqOne at2Zero powOne 3 rndHalf 1000 (1/10) cW).players.head?).map
      (fun p => (p.isAlive, decide (p.x < TANK_RADIUS)))) = some (true, true) := by
  decide

/-- C1 (witness for the amended theorem): the two-tank world keeps the
health invariant across the tick, the boundary tank stays in bounds after
its own update, and repairing a dented tank keeps health in range. -/
theorem c1_amended_witness :
    ((gameTick sqOne at2Zero powOne 3 rndHalf 1000 (1/10) cW).players.all
        (fun p => decide (0 ≤ p.hp) && decide (p.hp ≤ MAX_HEALTH))) = true ∧
    TANK_RADIUS ≤ (update sqOne at2Zero powOne 3 (1/2) (1/2) 1000 (1/10) cP1).x ∧
    0 ≤ (repair 1000 none cP6).2.2.hp := by
  refine ⟨?_, ?_, ?_⟩
  · rw [List.all_eq_true]
    intro p hp
    have h := c1_amended.1 sqOne at2Zero powOne 3 rndHalf 1000 (1/10) cW
      (by decide) p hp
    simp only [Bool.and_eq_true, decide_eq_true_eq]
    exact h
  · exact (c1_amended.2.2 sqOne at2Zero powOne 3 (1/2) (1/2) 1000 (1/10) cP1
      (by norm_num) (by norm_num) (by norm_num) (by norm_num) (by decide)).1
  · exact (c1_amended.2.1 1000 none cP6 (by decide)).1

end TankGame
